import Mathlib

/-!
Verification of the wake-word listener scripts
(`oww_listener.py`, `porcupine_listener.py`, `wake_word_bridge.py`).

The development shallowly embeds the Python sources: pure fragments become
Lean functions, the blocking read/predict loop becomes a function from one
iteration's inputs (the frame's engine result, the wall-clock reading) to
the iteration's emitted outputs, and process startup/shutdown become
explicit action traces.  Machine floats are modelled as rationals; the
external detection engines and the audio subsystem are modelled through the
call contract the spec fixes for them (section 4.2).
-/

/-- Decimal digit character, `digitChar n = '0' + n` for `n ≤ 9`
(callers always pass a value reduced mod 10; out-of-range falls to `'9'`). -/
def digitChar (n : Nat) : Char :=
  if n = 0 then '0' else if n = 1 then '1' else if n = 2 then '2'
  else if n = 3 then '3' else if n = 4 then '4' else if n = 5 then '5'
  else if n = 6 then '6' else if n = 7 then '7' else if n = 8 then '8' else '9'

/-- Numeric value of a decimal digit character. -/
def digitVal (c : Char) : Nat := c.toNat - 48

theorem digitChar_isDigit (m : Nat) (h : m < 10) : (digitChar m).isDigit = true := by
  interval_cases m <;> rfl

theorem digitVal_digitChar (m : Nat) (h : m < 10) : digitVal (digitChar m) = m := by
  interval_cases m <;> rfl

theorem digitChar_ne_newline (m : Nat) : digitChar m ≠ '\n' := by
  unfold digitChar; split_ifs <;> decide

/-- Two-digit zero-padded decimal rendering (as Python `%02d`). -/
def d2 (n : Nat) : List Char := [digitChar (n / 10 % 10), digitChar (n % 10)]

/-- Four-digit zero-padded decimal rendering (as Python `%04d`). -/
def d4 (n : Nat) : List Char :=
  [digitChar (n / 1000 % 10), digitChar (n / 100 % 10),
   digitChar (n / 10 % 10), digitChar (n % 10)]

/-- Six-digit zero-padded decimal rendering (as Python `%06d`, used for
the microsecond field of `datetime.isoformat`). -/
def d6 (n : Nat) : List Char :=
  [digitChar (n / 100000 % 10), digitChar (n / 10000 % 10),
   digitChar (n / 1000 % 10), digitChar (n / 100 % 10),
   digitChar (n / 10 % 10), digitChar (n % 10)]

/-- Unpadded decimal rendering of a natural number (fuel-structured). -/
def natCharsAux : Nat → Nat → List Char
  | 0, _ => []
  | fuel + 1, n =>
    if n < 10 then [digitChar n]
    else natCharsAux fuel (n / 10) ++ [digitChar (n % 10)]

/-- Unpadded decimal rendering of a natural number. -/
def natChars (n : Nat) : List Char := natCharsAux (n + 1) n

theorem natCharsAux_ne_newline (fuel n : Nat) : '\n' ∉ natCharsAux fuel n := by
  induction fuel generalizing n with
  | zero => simp [natCharsAux]
  | succ fuel ih =>
    simp only [natCharsAux]
    split
    · simp [digitChar_ne_newline n |>.symm]
    · intro h
      rcases List.mem_append.mp h with h | h
      · exact ih (n / 10) h
      · simp at h
        exact digitChar_ne_newline (n % 10) h.symm

theorem natChars_ne_newline (n : Nat) : '\n' ∉ natChars n :=
  natCharsAux_ne_newline (n + 1) n

theorem d6_ne_newline (n : Nat) : '\n' ∉ d6 n := by
  simp [d6]
  exact ⟨(digitChar_ne_newline _).symm, (digitChar_ne_newline _).symm,
    (digitChar_ne_newline _).symm, (digitChar_ne_newline _).symm,
    (digitChar_ne_newline _).symm, (digitChar_ne_newline _).symm⟩

/-- UTC wall-clock reading as produced by `datetime.now(timezone.utc)`:
the components Python's `datetime` carries (year 1–9999, microsecond
resolution, offset fixed to +00:00). -/
structure PyDateTime where
  year : Nat
  month : Nat
  day : Nat
  hour : Nat
  minute : Nat
  second : Nat
  microsecond : Nat
deriving DecidableEq

/-- Component ranges Python's `datetime` guarantees for any constructed value. -/
def PyDateTime.inRange (t : PyDateTime) : Prop :=
  0 < t.year ∧ t.year < 10000 ∧ 1 ≤ t.month ∧ t.month ≤ 12 ∧
  1 ≤ t.day ∧ t.day ≤ 31 ∧ t.hour < 24 ∧ t.minute < 60 ∧
  t.second < 60 ∧ t.microsecond < 1000000

instance (t : PyDateTime) : Decidable t.inRange := by
  unfold PyDateTime.inRange; infer_instance

/-- Embedding of `datetime.isoformat()` on an aware UTC datetime:
`YYYY-MM-DDTHH:MM:SS[.ffffff]+00:00`, the fractional part omitted exactly
when the microsecond field is zero (CPython behaviour). -/
def isoformatChars (t : PyDateTime) : List Char :=
  d4 t.year ++ '-' :: d2 t.month ++ '-' :: d2 t.day ++
  'T' :: d2 t.hour ++ ':' :: d2 t.minute ++ ':' :: d2 t.second ++
  (if t.microsecond = 0 then [] else '.' :: d6 t.microsecond) ++
  ['+', '0', '0', ':', '0', '0']

/-- Recogniser for the literal UTC offset +00:00. -/
def isUtcOffset : List Char → Bool
  | [p1, z1, z2, c1, z3, z4] =>
    (p1 == '+') && (z1 == '0') && (z2 == '0') && (c1 == ':') && (z3 == '0') && (z4 == '0')
  | _ => false

/-- Recogniser for the tail of an ISO-8601 UTC timestamp after the seconds
field: an optional six-digit fraction followed by the literal +00:00 offset. -/
def isoTailOk (cs : List Char) : Bool :=
  isUtcOffset cs ||
  (match cs with
   | p :: f1 :: f2 :: f3 :: f4 :: f5 :: f6 :: rest =>
     (p == '.') && f1.isDigit && f2.isDigit && f3.isDigit && f4.isDigit &&
     f5.isDigit && f6.isDigit && isUtcOffset rest
   | _ => false)

/-- Recogniser for ISO-8601 UTC timestamps of the extended format
`YYYY-MM-DDTHH:MM:SS[.ffffff]+00:00`, checking digit positions, field
ranges and the UTC offset.  Written independently of `isoformatChars` so
that acceptance of the formatter's output is a genuine statement. -/
def isIso8601UTC : List Char → Bool
  | y1 :: y2 :: y3 :: y4 :: c1 :: m1 :: m2 :: c2 :: e1 :: e2 ::
    c3 :: h1 :: h2 :: c4 :: n1 :: n2 :: c5 :: s1 :: s2 :: rest =>
    (c1 == '-') && (c2 == '-') && (c3 == 'T') && (c4 == ':') && (c5 == ':') &&
    y1.isDigit && y2.isDigit && y3.isDigit && y4.isDigit &&
    m1.isDigit && m2.isDigit && e1.isDigit && e2.isDigit &&
    h1.isDigit && h2.isDigit && n1.isDigit && n2.isDigit &&
    s1.isDigit && s2.isDigit &&
    decide (1 ≤ digitVal m1 * 10 + digitVal m2) &&
    decide (digitVal m1 * 10 + digitVal m2 ≤ 12) &&
    decide (1 ≤ digitVal e1 * 10 + digitVal e2) &&
    decide (digitVal e1 * 10 + digitVal e2 ≤ 31) &&
    decide (digitVal h1 * 10 + digitVal h2 < 24) &&
    decide (digitVal n1 * 10 + digitVal n2 < 60) &&
    decide (digitVal s1 * 10 + digitVal s2 < 60) &&
    isoTailOk rest
  | _ => false

theorem d2_digit_facts (n : Nat) (h : n < 100) :
    (digitChar (n / 10 % 10)).isDigit = true ∧ (digitChar (n % 10)).isDigit = true ∧
    digitVal (digitChar (n / 10 % 10)) * 10 + digitVal (digitChar (n % 10)) = n := by
  have h1 : n / 10 % 10 < 10 := Nat.mod_lt _ (by omega)
  have h2 : n % 10 < 10 := Nat.mod_lt _ (by omega)
  refine ⟨digitChar_isDigit _ h1, digitChar_isDigit _ h2, ?_⟩
  rw [digitVal_digitChar _ h1, digitVal_digitChar _ h2]
  omega

/-- The ISO-8601 recogniser accepts every timestamp the formatter produces
from an in-range datetime. -/
theorem isIso8601UTC_isoformat (t : PyDateTime) (h : t.inRange) :
    isIso8601UTC (isoformatChars t) = true := by
  obtain ⟨hy0, hy, hm1, hm2, hd1, hd2, hh, hn, hs, hu⟩ := h
  have hy4 : t.year / 1000 % 10 < 10 := Nat.mod_lt _ (by omega)
  have hy3 : t.year / 100 % 10 < 10 := Nat.mod_lt _ (by omega)
  obtain ⟨qm1, qm2, qm3⟩ := d2_digit_facts t.month (by omega)
  obtain ⟨qd1, qd2, qd3⟩ := d2_digit_facts t.day (by omega)
  obtain ⟨qh1, qh2, qh3⟩ := d2_digit_facts t.hour (by omega)
  obtain ⟨qn1, qn2, qn3⟩ := d2_digit_facts t.minute (by omega)
  obtain ⟨qs1, qs2, qs3⟩ := d2_digit_facts t.second (by omega)
  have qy1 : (digitChar (t.year / 10 % 10)).isDigit = true :=
    digitChar_isDigit _ (Nat.mod_lt _ (by omega))
  have qy2 : (digitChar (t.year % 10)).isDigit = true :=
    digitChar_isDigit _ (Nat.mod_lt _ (by omega))
  by_cases hms : t.microsecond = 0 <;>
  · simp only [isoformatChars, d4, d2, d6, hms, if_true, if_false, reduceIte,
      List.cons_append, List.nil_append, List.append_assoc]
    simp only [isIso8601UTC, isoTailOk, isUtcOffset, beq_self_eq_true,
      Bool.true_and, Bool.and_true, Bool.true_or, Bool.or_true,
      Bool.and_eq_true, decide_eq_true_eq]
    repeat' apply And.intro
    all_goals
      first
        | exact digitChar_isDigit _ hy4
        | exact digitChar_isDigit _ hy3
        | assumption
        | trivial
        | omega
        | exact digitChar_isDigit _ (Nat.mod_lt _ (by omega))
        | (simp only [Bool.false_or, Bool.and_eq_true]
           repeat' apply And.intro
           all_goals exact digitChar_isDigit _ (Nat.mod_lt _ (by omega)))

/-- Scalar JSON value: the wake-word events are flat JSON objects whose
values are strings, numbers or null (floats are modelled as rationals). -/
inductive JValue where
  | null
  | str (s : String)
  | num (q : ℚ)
deriving DecidableEq

/-- Hexadecimal digit character (used for control-character escapes). -/
def hexChar (n : Nat) : Char :=
  if n < 10 then digitChar n
  else if n = 10 then 'a' else if n = 11 then 'b' else if n = 12 then 'c'
  else if n = 13 then 'd' else if n = 14 then 'e' else 'f'

/-- JSON string escaping as `json.dumps` performs it for the characters that
can occur here: quote, backslash and control characters are escaped (the
common ones by letter escape, the rest as a hexadecimal escape); other
characters pass through unchanged. -/
def escapeChar (c : Char) : List Char :=
  if c = '"' then ['\\', '"']
  else if c = '\\' then ['\\', '\\']
  else if c.toNat < 32 then
    if c = '\n' then ['\\', 'n']
    else if c = '\t' then ['\\', 't']
    else if c = '\r' then ['\\', 'r']
    else if c = '\x08' then ['\\', 'b']
    else if c = '\x0c' then ['\\', 'f']
    else ['\\', 'u', '0', '0', hexChar (c.toNat / 16), hexChar (c.toNat % 16)]
  else [c]

/-- Escape every character of a string body. -/
def escChars : List Char → List Char
  | [] => []
  | c :: cs => escapeChar c ++ escChars cs

/-- Serialised JSON string: quote, escaped body, quote. -/
def serializeStringChars (s : String) : List Char :=
  '"' :: escChars s.data ++ ['"']

/-- Decimal rendering of a rational (stands in for CPython's float `repr`:
optional sign, integer part, point, six fractional digits). -/
def decimalChars (q : ℚ) : List Char :=
  (if q < 0 then ['-'] else []) ++ natChars (⌊|q|⌋).toNat ++
  '.' :: d6 ((⌊|q| * 1000000⌋).toNat % 1000000)

/-- Serialised scalar JSON value. -/
def serializeValue : JValue → List Char
  | JValue.null => ['n', 'u', 'l', 'l']
  | JValue.str s => serializeStringChars s
  | JValue.num q => decimalChars q

/-- One `"key": value` member (with the `": "` separator `json.dumps` uses). -/
def memberChars (kv : String × JValue) : List Char :=
  serializeStringChars kv.1 ++ ':' :: ' ' :: serializeValue kv.2

/-- Members joined with the `", "` separator `json.dumps` uses. -/
def membersChars : List (String × JValue) → List Char
  | [] => []
  | [kv] => memberChars kv
  | kv :: kv2 :: rest => memberChars kv ++ ',' :: ' ' :: membersChars (kv2 :: rest)

/-- Serialised JSON object, as `json.dumps` renders a dict (insertion order
preserved). -/
def serializeObj (kvs : List (String × JValue)) : List Char :=
  '\x7b' :: membersChars kvs ++ ['\x7d']

theorem hexChar_ne_newline (n : Nat) : hexChar n ≠ '\n' := by
  unfold hexChar
  split_ifs with h
  · exact digitChar_ne_newline n
  all_goals decide

theorem escapeChar_ne_newline (c : Char) : '\n' ∉ escapeChar c := by
  unfold escapeChar
  split_ifs with h1 h2 h3 h4 h5 h6 h7 h8
  · decide
  · decide
  · decide
  · decide
  · decide
  · decide
  · decide
  · intro hmem
    simp only [List.mem_cons, List.mem_singleton] at hmem
    rcases hmem with h | h | h | h | h | h
    · exact absurd h.symm (by decide)
    · exact absurd h.symm (by decide)
    · exact absurd h.symm (by decide)
    · exact absurd h.symm (by decide)
    · exact hexChar_ne_newline _ h.symm
    · rcases h with h | h
      · exact hexChar_ne_newline _ h.symm
      · simp at h
  · intro hmem
    simp only [List.mem_singleton] at hmem
    subst hmem
    simp at h3

theorem escChars_ne_newline (cs : List Char) : '\n' ∉ escChars cs := by
  induction cs with
  | nil => simp [escChars]
  | cons c cs ih =>
    simp only [escChars]
    intro h
    rcases List.mem_append.mp h with h | h
    · exact escapeChar_ne_newline c h
    · exact ih h

theorem serializeStringChars_ne_newline (s : String) : '\n' ∉ serializeStringChars s := by
  simp only [serializeStringChars]
  intro h
  rcases List.mem_cons.mp h with h | h
  · exact absurd h (by decide)
  · rcases List.mem_append.mp h with h | h
    · exact escChars_ne_newline _ h
    · simp at h

theorem decimalChars_ne_newline (q : ℚ) : '\n' ∉ decimalChars q := by
  simp only [decimalChars]
  intro h
  rcases List.mem_append.mp h with h | h
  · rcases List.mem_append.mp h with h | h
    · split_ifs at h <;> simp_all
    · exact natChars_ne_newline _ h
  · rcases List.mem_cons.mp h with h | h
    · exact absurd h (by decide)
    · exact d6_ne_newline _ h

theorem serializeValue_ne_newline (v : JValue) : '\n' ∉ serializeValue v := by
  cases v with
  | null => decide
  | str s => exact serializeStringChars_ne_newline s
  | num q => exact decimalChars_ne_newline q

theorem memberChars_ne_newline (kv : String × JValue) : '\n' ∉ memberChars kv := by
  simp only [memberChars]
  intro h
  rcases List.mem_append.mp h with h | h
  · exact serializeStringChars_ne_newline _ h
  · rcases List.mem_cons.mp h with h | h
    · exact absurd h (by decide)
    · rcases List.mem_cons.mp h with h | h
      · exact absurd h (by decide)
      · exact serializeValue_ne_newline _ h

theorem membersChars_ne_newline (kvs : List (String × JValue)) : '\n' ∉ membersChars kvs := by
  induction kvs with
  | nil => simp [membersChars]
  | cons kv rest ih =>
    cases rest with
    | nil => exact memberChars_ne_newline kv
    | cons kv2 rest2 =>
      simp only [membersChars]
      intro h
      rcases List.mem_append.mp h with h | h
      · exact memberChars_ne_newline kv h
      · rcases List.mem_cons.mp h with h | h
        · exact absurd h (by decide)
        · rcases List.mem_cons.mp h with h | h
          · exact absurd h (by decide)
          · exact ih h

/-- A serialised JSON object never contains a newline: the emitted event is
a single line. -/
theorem serializeObj_ne_newline (kvs : List (String × JValue)) : '\n' ∉ serializeObj kvs := by
  simp only [serializeObj]
  intro h
  rcases List.mem_cons.mp h with h | h
  · exact absurd h (by decide)
  · rcases List.mem_append.mp h with h | h
    · exact membersChars_ne_newline _ h
    · simp at h

/-- One `print(..., flush=...)` call on stdout: the written line (without
its terminating newline) and whether the stream was flushed. -/
structure Emitted where
  line : List Char
  flush : Bool
deriving DecidableEq

/-- Event dict built by `emit_event` in `wake_word_bridge.py`:
`{"ts": now.isoformat(), "type": event_type, **data}` — insertion order
puts `ts` first, then `type`, then the event-specific fields. -/
def eventKVs (now : PyDateTime) (etype : String) (data : List (String × JValue)) :
    List (String × JValue) :=
  ("ts", JValue.str (String.mk (isoformatChars now))) ::
  ("type", JValue.str etype) :: data

/-- Embedding of `emit_event` (wake_word_bridge.py lines 32-39): serialise
the event dict as one JSON line and print it with `flush=True`. -/
def emit_event (now : PyDateTime) (etype : String) (data : List (String × JValue)) : Emitted :=
  ⟨serializeObj (eventKVs now etype data), true⟩

/-- JSON value of the `score` field: `None` becomes JSON null. -/
def scoreValue : Option ℚ → JValue
  | none => JValue.null
  | some q => JValue.num q

/-- Event-specific fields `on_detection` passes to `emit_event`
(wake_word_bridge.py lines 42-48). -/
def detectionData (backend word : String) (score : Option ℚ) : List (String × JValue) :=
  [("backend", JValue.str backend), ("word", JValue.str word), ("score", scoreValue score)]

/-- Embedding of `on_detection` (wake_word_bridge.py lines 42-48); the
Python default for `score` is `None`, modelled as an explicit `Option`. -/
def on_detection (now : PyDateTime) (backend word : String) (score : Option ℚ) : Emitted :=
  emit_event now "wake_word_detected" (detectionData backend word score)

/-- Truncation toward zero, as Python's `int()` on a float. -/
def pyInt (q : ℚ) : Int := if 0 ≤ q then q.floor else -((-q).floor)

/-- The stats-line guard of the standalone listeners
(`int(elapsed) % 60 == 0 and int(elapsed) > 0`). -/
def statsDue (elapsed : ℚ) : Bool :=
  (pyInt elapsed % 60 == 0) && decide (0 < pyInt elapsed)

/-- The value classes a CPython float can take: a finite value (modelled
as an exact rational, per this development's convention for floats), one
of the two infinities, or NaN.  Needed because `float()` accepts "inf",
"-Infinity" and "nan". -/
inductive PyFloat where
  | finite (q : ℚ)
  | inf
  | negInf
  | nan
deriving DecidableEq

/-- Whitespace `float()` strips from both ends of its argument. -/
def isPySpace (c : Char) : Bool :=
  (c == ' ') || (c == '\t') || (c == '\n') || (c == '\r') ||
  (c == '\x0b') || (c == '\x0c')

/-- Strip leading and trailing whitespace. -/
def stripChars (cs : List Char) : List Char :=
  ((cs.dropWhile isPySpace).reverse.dropWhile isPySpace).reverse

/-- PEP 515 underscore placement: every underscore in a numeric literal
must sit directly between two digits; `prev` is the preceding character. -/
def underscoresOkAux : Option Char → List Char → Bool
  | _, [] => true
  | prev, c :: rest =>
    if c == '_' then
      (match prev with
       | some p => p.isDigit
       | none => false) &&
      (match rest with
       | r :: _ => r.isDigit
       | [] => false) &&
      underscoresOkAux (some c) rest
    else underscoresOkAux (some c) rest

/-- Whether all underscores in the token are legally placed. -/
def underscoresOk (cs : List Char) : Bool := underscoresOkAux none cs

/-- Numeric value of an all-digit string. -/
def digitsToNat (cs : List Char) : Nat :=
  cs.foldl (fun a c => a * 10 + (c.toNat - 48)) 0

/-- Exponent part after the 'e': optional sign, then at least one digit. -/
def parseExp (cs : List Char) : Option Int :=
  match cs with
  | '+' :: ds =>
    if ds.isEmpty then none
    else if ds.all Char.isDigit then some (digitsToNat ds : Int) else none
  | '-' :: ds =>
    if ds.isEmpty then none
    else if ds.all Char.isDigit then some (-(digitsToNat ds : Int)) else none
  | ds =>
    if ds.isEmpty then none
    else if ds.all Char.isDigit then some (digitsToNat ds : Int) else none

/-- Unsigned decimal of `float()`'s grammar: integer digits, optional
point and fraction digits — at least one digit in the mantissa overall —
and an optional exponent `e[sign]digits`; exact rational value. -/
def parseDecimal (cs : List Char) : Option ℚ :=
  let ipr := cs.span Char.isDigit
  let fpr :=
    match ipr.2 with
    | '.' :: rest => rest.span Char.isDigit
    | _ => ([], ipr.2)
  if ipr.1.isEmpty && fpr.1.isEmpty then none
  else
    let mant : ℚ :=
      (digitsToNat ipr.1 : ℚ) + (digitsToNat fpr.1 : ℚ) / (10 : ℚ) ^ fpr.1.length
    match fpr.2 with
    | [] => some mant
    | 'e' :: rest =>
      match parseExp rest with
      | some ex => some (mant * (10 : ℚ) ^ ex)
      | none => none
    | _ => none

/-- Embedding of CPython's `float()` on a string: strip surrounding
whitespace, lower the case, check underscore placement (PEP 515) and drop
underscores, then an optional sign followed by `inf`/`infinity`/`nan` or
a decimal with optional fraction and exponent.  Covers the grammar over
ASCII text (exotic Unicode digit and space forms are out of scope);
`none` models the `ValueError` on everything the grammar rejects.  Used
for `float(os.environ.get("WAKE_WORD_THRESHOLD", "0.5"))` and for the
argparse `type=float` conversion. -/
def parseFloat (s : String) : Option PyFloat :=
  let cs := stripChars (s.data.map Char.toLower)
  if !underscoresOk cs then none
  else
    let cs2 := cs.filter (fun c => !(c == '_'))
    let signedBody : Bool × List Char :=
      match cs2 with
      | '-' :: rest => (true, rest)
      | '+' :: rest => (false, rest)
      | _ => (false, cs2)
    if (signedBody.2 == ['i', 'n', 'f']) ||
       (signedBody.2 == ['i', 'n', 'f', 'i', 'n', 'i', 't', 'y']) then
      some (if signedBody.1 then PyFloat.negInf else PyFloat.inf)
    else if signedBody.2 == ['n', 'a', 'n'] then some PyFloat.nan
    else
      (parseDecimal signedBody.2).map
        (fun q => PyFloat.finite (if signedBody.1 then -q else q))

/-- Evaluation checks of the `float()` embedding on representative inputs:
exponent notation, keywords, whitespace-padded and underscored numerals
are accepted with their CPython values; strings `float()` genuinely
rejects map to `none`. -/
theorem parseFloat_evals :
    parseFloat ("inf") = some PyFloat.inf ∧
    parseFloat ("-Infinity") = some PyFloat.negInf ∧
    parseFloat ("nan") = some PyFloat.nan ∧
    parseFloat ("") = none ∧
    parseFloat ("abc") = none ∧
    parseFloat ("1e") = none ∧
    parseFloat ("_1") = none ∧
    parseFloat ("1__0") = none ∧
    parseFloat ("1_.5") = none ∧
    (parseFloat ("1e-1")).isSome = true ∧
    (parseFloat (" 0.5 ")).isSome = true ∧
    (parseFloat ("1_000.5")).isSome = true ∧
    (parseFloat ("-inf")) = some PyFloat.negInf :=
  ⟨rfl, rfl, rfl, rfl, rfl, rfl, rfl, rfl, rfl, rfl, rfl, rfl, rfl⟩

/-- Value fidelity of the decimal core on representative inputs: "0.5"
parses to one half and "1e-1" (exponent notation) to one tenth. -/
theorem parseDecimal_evals :
    (∃ q : ℚ, parseDecimal ['0', '.', '5'] = some q ∧ q = 1 / 2) ∧
    (∃ q : ℚ, parseDecimal ['1', 'e', '-', '1'] = some q ∧ q = 1 / 10) := by
  constructor
  · refine ⟨_, rfl, ?_⟩
    norm_num [digitsToNat, List.foldl,
      show List.dropWhile Char.isDigit ['0', '.', '5'] = ['.', '5'] from rfl,
      show List.takeWhile Char.isDigit ['5'] = ['5'] from rfl,
      show '0'.toNat = 48 from rfl, show '5'.toNat = 53 from rfl]
  · refine ⟨_, rfl, ?_⟩
    norm_num [digitsToNat, List.foldl, show '1'.toNat = 49 from rfl]

/-- The two wake-word backends. -/
inductive WWBackend where
  | porcupine
  | oww
deriving DecidableEq

/-- Observable output of one standalone-listener loop iteration: a human
detection line (`on_wake_word_detected`, which reports word and score in
the oww listener and neither in the porcupine listener), or a stats line
reporting the cumulative count and the extrapolated hourly rate. -/
inductive ListenerOut where
  | detected (word : Option String) (score : Option ℚ)
  | statsLine (count : Nat) (rate : ℚ)
deriving DecidableEq

/-- The score filter of the neural (openWakeWord) backend: the pairs of
`predictions.items()` whose score passes `score >= threshold`. -/
def owwHits (threshold : ℚ) (predictions : List (String × ℚ)) : List (String × ℚ) :=
  predictions.filter (fun ws => threshold ≤ ws.2)

/-- One iteration of `listen` in oww_listener.py (lines 86-101): the engine
returns `predictions` for the frame; each pair at or above the threshold
increments the counter and is reported; then, with `elapsed` the wall-clock
reading taken after the frame, a stats line is printed when
`int(elapsed) % 60 == 0 and int(elapsed) > 0`. -/
def owwListenIteration (threshold : ℚ) (count : Nat) (elapsed : ℚ)
    (predictions : List (String × ℚ)) : Nat × List ListenerOut :=
  let hits := owwHits threshold predictions
  let count2 := count + hits.length
  (count2,
    hits.map (fun ws => ListenerOut.detected (some ws.1) (some ws.2)) ++
    (if statsDue elapsed
     then [ListenerOut.statsLine count2 ((count2 : ℚ) / (elapsed / 3600))]
     else []))

/-- One iteration of `listen` in porcupine_listener.py (lines 84-97): the
engine's `process` returns the integer `result`; `result >= 0` increments
the counter and reports a detection; the stats guard is as in the oww
listener. -/
def porcListenIteration (count : Nat) (elapsed : ℚ) (result : Int) :
    Nat × List ListenerOut :=
  let count2 := count + (if 0 ≤ result then 1 else 0)
  (count2,
    (if 0 ≤ result then [ListenerOut.detected none none] else []) ++
    (if statsDue elapsed
     then [ListenerOut.statsLine count2 ((count2 : ℚ) / (elapsed / 3600))]
     else []))

/-- The `(word, score)` pairs one bridge `run_oww` iteration forwards to
`on_detection` (wake_word_bridge.py lines 124-129): exactly the prediction
pairs passing `score >= threshold`. -/
def run_oww_calls (threshold : ℚ) (predictions : List (String × ℚ)) : List (String × ℚ) :=
  predictions.filter (fun ws => threshold ≤ ws.2)

/-- One iteration of the bridge's `run_oww` loop: the emitted JSON lines. -/
def run_oww_iteration (now : PyDateTime) (threshold : ℚ)
    (predictions : List (String × ℚ)) : List Emitted :=
  (run_oww_calls threshold predictions).map
    (fun ws => on_detection now "oww" ws.1 (some ws.2))

/-- The `(word, score)` arguments one bridge `run_porcupine` iteration
forwards to `on_detection` (wake_word_bridge.py lines 90-94): the hardcoded
word "claudette" with no score, exactly when `process(pcm) >= 0`. -/
def run_porcupine_calls (result : Int) : List (String × Option ℚ) :=
  if 0 ≤ result then [("claudette", none)] else []

/-- One iteration of the bridge's `run_porcupine` loop: the emitted JSON
lines. -/
def run_porcupine_iteration (now : PyDateTime) (result : Int) : List Emitted :=
  (run_porcupine_calls result).map (fun c => on_detection now "porcupine" c.1 c.2)

/-- The wake word this repository is built around: `run_porcupine` attaches
the literal "claudette" to every detection (the trained models are the
claudette models). -/
def configuredWakeWord : String := "claudette"

/-- The bridge's `run_oww` / `run_porcupine` loops declare no loop-local
variables at all: their loop state is trivial. -/
def bridgeLoopState : Unit := ()

/-- The whole observable output of the bridge's `run_oww` loop over a list
of frames (each frame given by its prediction result). -/
def run_oww_loop (now : PyDateTime) (threshold : ℚ)
    (frames : List (List (String × ℚ))) : List Emitted :=
  (frames.map (run_oww_iteration now threshold)).flatten

/-- The standalone oww listener's loop over a list of iterations, each
given by the wall-clock reading and the frame's predictions; threads the
`detection_count` accumulator exactly as the Python loop does. -/
def owwListenRun (threshold : ℚ) (iters : List (ℚ × List (String × ℚ))) :
    Nat × List ListenerOut :=
  iters.foldl
    (fun acc it =>
      let r := owwListenIteration threshold acc.1 it.1 it.2
      (r.1, acc.2 ++ r.2))
    (0, [])

/-- The standalone porcupine listener's loop over a list of iterations,
each given by the wall-clock reading and the engine result for the frame. -/
def porcListenRun (iters : List (ℚ × Int)) : Nat × List ListenerOut :=
  iters.foldl
    (fun acc it =>
      let r := porcListenIteration acc.1 it.1 it.2
      (r.1, acc.2 ++ r.2))
    (0, [])

/-- Number of detection reports among a listener's outputs. -/
def detectedCount (outs : List ListenerOut) : Nat :=
  outs.countP (fun o => match o with
    | ListenerOut.detected _ _ => true
    | _ => false)

/-- Stand-in for `os.path.dirname(__file__)` joined by `os.path.join`: the
directory the scripts live in. -/
def scriptDir : String := "src/voice/wake_word/"

/-- Default porcupine model path (`models/claudette_linux.ppn` under the
script directory). -/
def porcupineDefaultModelPath : String := scriptDir ++ "models/claudette_linux.ppn"

/-- Default openWakeWord model path (`models/claudette.tflite` under the
script directory). -/
def owwDefaultModelPath : String := scriptDir ++ "models/claudette.tflite"

/-- Observable startup action of a listener process, in program order. -/
inductive Act where
  | printLine (s : String)
  | openEngine (b : WWBackend) (model : String)
  | engineOpenFailed (b : WWBackend) (model : String)
  | openStream
  | emitStarted (b : WWBackend)
  | exitProcess (code : Nat)
  | raiseUnhandled
  | enterLoop
deriving DecidableEq

/-- Exit status of a startup trace.  A trace ending in `exitProcess c`
exits with `c`; an uncaught exception terminates a CPython process with
status 1; a trace reaching the listening loop has no exit status. -/
def traceExitCode : List Act → Option Nat
  | [] => none
  | Act.exitProcess c :: _ => some c
  | Act.raiseUnhandled :: _ => some 1
  | _ :: rest => traceExitCode rest

/-- The error line the bridge prints when the porcupine access key is
missing (wake_word_bridge.py line 168). -/
def accessKeyErrorLine : String := "\x7b\"error\": \"PORCUPINE_ACCESS_KEY not set\"\x7d"

/-- Startup of the bridge's `run_porcupine` (lines 53-90) up to the loop:
`pvporcupine.create` first — per the engine contract (spec section 4.2)
`open` fails when the model file does not exist, and the script catches
nothing, so the exception propagates — then the audio stream, then the
`listener_started` event. -/
def run_porcupine_start (fs : String → Bool) (model : String) : List Act :=
  if fs model then
    [Act.openEngine WWBackend.porcupine model, Act.openStream,
     Act.emitStarted WWBackend.porcupine, Act.enterLoop]
  else
    [Act.engineOpenFailed WWBackend.porcupine model, Act.raiseUnhandled]

/-- Startup of the bridge's `run_oww` (lines 97-124) up to the loop:
`Model(...)` first (fails on a missing model file, uncaught), then the
audio stream, then the `listener_started` event. -/
def run_oww_start (fs : String → Bool) (model : String) : List Act :=
  if fs model then
    [Act.openEngine WWBackend.oww model, Act.openStream,
     Act.emitStarted WWBackend.oww, Act.enterLoop]
  else
    [Act.engineOpenFailed WWBackend.oww model, Act.raiseUnhandled]

/-- The environment variables the bridge reads. -/
structure BridgeEnv where
  backend : Option String
  model : Option String
  threshold : Option String
  accessKey : Option String
deriving DecidableEq

/-- The bridge's command-line flags; a `none` field means the flag was not
given.  `threshold` is already a parsed float value because `argparse`
(`type=float`) converts the flag — rejecting what `float()` rejects —
before `main`'s logic runs. -/
structure BridgeFlags where
  backend : Option String
  model : Option String
  threshold : Option PyFloat
  accessKey : Option String
deriving DecidableEq

/-- A `--backend` flag value `argparse` accepts (`choices`); the
environment default is not checked against the choices. -/
def validBackendFlag (flags : BridgeFlags) : Prop :=
  flags.backend = none ∨ flags.backend = some ("porcupine") ∨ flags.backend = some ("oww")

instance (flags : BridgeFlags) : Decidable (validBackendFlag flags) := by
  unfold validBackendFlag; infer_instance

/-- The `argparse` default for `--threshold`:
`float(os.environ.get("WAKE_WORD_THRESHOLD", "0.5"))`, evaluated eagerly
when the parser is built; `none` models the `ValueError` a malformed
environment value raises there. -/
def bridgeThresholdDefault (env : BridgeEnv) : Option PyFloat :=
  match env.threshold with
  | none => some (PyFloat.finite (1 / 2))
  | some s => parseFloat s

/-- Effective backend string: flag, else `WAKE_WORD_BACKEND`, else
"porcupine" (wake_word_bridge.py line 136). -/
def bridgeBackendStr (env : BridgeEnv) (flags : BridgeFlags) : String :=
  flags.backend.getD (env.backend.getD ("porcupine"))

/-- `args.model` after parsing: flag, else `WAKE_WORD_MODEL`, else absent
(wake_word_bridge.py line 142). -/
def bridgeModelArg (env : BridgeEnv) (flags : BridgeFlags) : Option String :=
  flags.model <|> env.model

/-- Backend-specific default model path (wake_word_bridge.py lines 159-164). -/
def bridgeDefaultModel (backendStr : String) : String :=
  if backendStr == "porcupine" then porcupineDefaultModelPath else owwDefaultModelPath

/-- The model path the bridge ends up with: `if not args.model` — that is,
when the flag/environment chain yields nothing or an empty string — the
backend-specific default is substituted. -/
def bridgeResolvedModel (env : BridgeEnv) (flags : BridgeFlags) : String :=
  match bridgeModelArg env flags with
  | none => bridgeDefaultModel (bridgeBackendStr env flags)
  | some m => if m == "" then bridgeDefaultModel (bridgeBackendStr env flags) else m

/-- The threshold the bridge ends up with (flag overrides the parsed
environment default); `none` when the eager `float()` call already failed. -/
def bridgeResolvedThreshold (env : BridgeEnv) (flags : BridgeFlags) : Option PyFloat :=
  match bridgeThresholdDefault env with
  | none => none
  | some d => some (flags.threshold.getD d)

/-- Effective access key: flag, else `PORCUPINE_ACCESS_KEY`
(wake_word_bridge.py line 153). -/
def bridgeAccessKey (env : BridgeEnv) (flags : BridgeFlags) : Option String :=
  flags.accessKey <|> env.accessKey

/-- Whether `argparse` rejects the command line (`--backend` outside its
`choices`); exit code 2. -/
def bridgeUsageErr (flags : BridgeFlags) : Bool :=
  match flags.backend with
  | none => false
  | some b => !((b == "porcupine") || (b == "oww"))

/-- Embedding of `main` of wake_word_bridge.py (lines 132-172), given the
filesystem `fs` (whether a path exists): eager `float()` of the threshold
environment value (a failure there is an uncaught ValueError), argparse
choice checking, default resolution, then the access-key gate for the
porcupine backend, then the chosen backend runner. -/
def bridge_main (fs : String → Bool) (env : BridgeEnv) (flags : BridgeFlags) : List Act :=
  match bridgeThresholdDefault env with
  | none => [Act.raiseUnhandled]
  | some _ =>
    if bridgeUsageErr flags then [Act.exitProcess 2]
    else
      let model := bridgeResolvedModel env flags
      if bridgeBackendStr env flags == "porcupine" then
        match bridgeAccessKey env flags with
        | none => [Act.printLine accessKeyErrorLine, Act.exitProcess 1]
        | some _ => run_porcupine_start fs model
      else run_oww_start fs model

/-- The porcupine standalone listener's flags. -/
structure PorcFlags where
  model : Option String
  sensitivity : Option ℚ
  accessKey : Option String
deriving DecidableEq

/-- Embedding of `main` of porcupine_listener.py (lines 100-130): the
access-key check comes first, then the model-existence check, then `listen`
(engine, stream, banner, loop). -/
def porcupine_listener_main (fs : String → Bool) (envKey : Option String)
    (flags : PorcFlags) : List Act :=
  let model := flags.model.getD porcupineDefaultModelPath
  match flags.accessKey <|> envKey with
  | none =>
    [Act.printLine ("ERROR: No access key. Set PORCUPINE_ACCESS_KEY or pass --access-key"),
     Act.printLine ("  Get yours free at console.picovoice.ai"),
     Act.exitProcess 1]
  | some _ =>
    if fs model then
      [Act.printLine ("Loading Porcupine model: " ++ model),
       Act.openEngine WWBackend.porcupine model, Act.openStream,
       Act.printLine ("listening banner"), Act.enterLoop]
    else
      [Act.printLine ("ERROR: Model not found: " ++ model),
       Act.exitProcess 1]

/-- The oww standalone listener's flags. -/
structure OwwFlags where
  model : Option String
  threshold : Option ℚ
deriving DecidableEq

/-- Embedding of `main` of oww_listener.py (lines 104-127): the
model-existence check, then `listen` (engine, stream, banner, loop). -/
def oww_listener_main (fs : String → Bool) (flags : OwwFlags) : List Act :=
  let model := flags.model.getD owwDefaultModelPath
  if fs model then
    [Act.printLine ("Loading openWakeWord model: " ++ model),
     Act.openEngine WWBackend.oww model, Act.openStream,
     Act.printLine ("listening banner"), Act.enterLoop]
  else
    [Act.printLine ("ERROR: Model not found: " ++ model),
     Act.exitProcess 1]

/-- Which teardown calls fail (raise) inside a shutdown handler. -/
structure ReleaseFailures where
  streamClose : Bool
  paTerminate : Bool
  engineDelete : Bool
deriving DecidableEq

/-- Observable action of a shutdown handler. -/
inductive ShutAct where
  | printShutdown
  | streamClose
  | paTerminate
  | engineDelete
  | emitStopped (b : WWBackend)
  | exitZero
  | propagateErr
deriving DecidableEq

/-- No release fails. -/
def noFailures : ReleaseFailures := ⟨false, false, false⟩

/-- The bridge's porcupine shutdown handler (wake_word_bridge.py lines
80-85): plain sequential calls, no try/finally — an exception in any call
propagates out of the handler and the remaining statements never run. -/
def bridgePorcShutdown (f : ReleaseFailures) : List ShutAct :=
  if f.streamClose then [ShutAct.propagateErr]
  else ShutAct.streamClose ::
    (if f.paTerminate then [ShutAct.propagateErr]
     else ShutAct.paTerminate ::
       (if f.engineDelete then [ShutAct.propagateErr]
        else [ShutAct.engineDelete, ShutAct.emitStopped WWBackend.porcupine,
              ShutAct.exitZero]))

/-- The bridge's oww shutdown handler (wake_word_bridge.py lines 115-119):
closes the stream and audio system and emits the stopped event; the oww
engine handle has no release call at all. -/
def bridgeOwwShutdown (f : ReleaseFailures) : List ShutAct :=
  if f.streamClose then [ShutAct.propagateErr]
  else ShutAct.streamClose ::
    (if f.paTerminate then [ShutAct.propagateErr]
     else [ShutAct.paTerminate, ShutAct.emitStopped WWBackend.oww, ShutAct.exitZero])

/-- The standalone porcupine listener's shutdown handler
(porcupine_listener.py lines 70-75): prints a shutdown message, then the
three sequential releases, then `sys.exit(0)`; no structured stopped event. -/
def porcListenerShutdown (f : ReleaseFailures) : List ShutAct :=
  ShutAct.printShutdown ::
    (if f.streamClose then [ShutAct.propagateErr]
     else ShutAct.streamClose ::
       (if f.paTerminate then [ShutAct.propagateErr]
        else ShutAct.paTerminate ::
          (if f.engineDelete then [ShutAct.propagateErr]
           else [ShutAct.engineDelete, ShutAct.exitZero])))

/-- The standalone oww listener's shutdown handler (oww_listener.py lines
74-78): print, close stream, terminate audio, exit 0; the engine handle has
no release call. -/
def owwListenerShutdown (f : ReleaseFailures) : List ShutAct :=
  ShutAct.printShutdown ::
    (if f.streamClose then [ShutAct.propagateErr]
     else ShutAct.streamClose ::
       (if f.paTerminate then [ShutAct.propagateErr]
        else [ShutAct.paTerminate, ShutAct.exitZero]))

theorem mem_detected_map (l : List (String × ℚ)) (w : String) (s : ℚ) :
    ListenerOut.detected (some w) (some s) ∈
      l.map (fun ws => ListenerOut.detected (some ws.1) (some ws.2)) ↔ (w, s) ∈ l := by
  constructor
  · intro h
    obtain ⟨a, ha, heq⟩ := List.mem_map.mp h
    obtain ⟨h1, h2⟩ := ListenerOut.detected.inj heq
    have ha1 : a.1 = w := Option.some.inj h1
    have ha2 : a.2 = s := Option.some.inj h2
    have : a = (w, s) := Prod.ext ha1 ha2
    exact this ▸ ha
  · intro h
    exact List.mem_map.mpr ⟨(w, s), h, rfl⟩

theorem detected_not_mem_statsTail (b : Bool) (c : Nat) (r : ℚ)
    (w : Option String) (sc : Option ℚ) :
    ListenerOut.detected w sc ∉ (if b then [ListenerOut.statsLine c r] else []) := by
  cases b <;> simp

/-- C1: for every threshold `t` and every `(word, score)` pair the neural
engine returns for a frame, a detection is forwarded in that iteration iff
`score >= t` (boundary-inclusive) — in the standalone oww listener's loop
and in the bridge's `run_oww` loop alike, for every frame (the iteration's
inputs are universally quantified). -/
theorem claim_C1 (threshold s : ℚ) (w : String) (count : Nat) (elapsed : ℚ)
    (predictions : List (String × ℚ)) (hmem : (w, s) ∈ predictions) :
    (ListenerOut.detected (some w) (some s) ∈
        (owwListenIteration threshold count elapsed predictions).2 ↔ threshold ≤ s) ∧
    ((w, s) ∈ run_oww_calls threshold predictions ↔ threshold ≤ s) := by
  constructor
  · simp only [owwListenIteration, List.mem_append]
    constructor
    · rintro (h | h)
      · have := (mem_detected_map _ _ _).mp h
        have := List.mem_filter.mp this
        simpa using this.2
      · exact absurd h (detected_not_mem_statsTail _ _ _ _ _)
    · intro h
      left
      exact (mem_detected_map _ _ _).mpr (List.mem_filter.mpr ⟨hmem, by simpa using h⟩)
  · simp only [run_oww_calls, List.mem_filter, decide_eq_true_eq]
    constructor
    · exact fun h => h.2
    · exact fun h => ⟨hmem, h⟩

theorem claim_C1_witness :
    ListenerOut.detected (some ("claudette")) (some ((3 : ℚ) / 4)) ∈
      (owwListenIteration ((1 : ℚ) / 2) 0 0 [(("claudette"), (3 : ℚ) / 4)]).2 ∧
    (("claudette"), (3 : ℚ) / 4) ∈ run_oww_calls ((1 : ℚ) / 2) [(("claudette"), (3 : ℚ) / 4)] := by
  have h := claim_C1 ((1 : ℚ) / 2) ((3 : ℚ) / 4) ("claudette") 0 0
    [(("claudette"), (3 : ℚ) / 4)] (List.mem_singleton.mpr rfl)
  exact ⟨h.1.mpr (by norm_num), h.2.mpr (by norm_num)⟩

theorem usageErr_false_of_valid (flags : BridgeFlags) (hv : validBackendFlag flags) :
    bridgeUsageErr flags = false := by
  rcases hv with h | h | h <;> simp [bridgeUsageErr, h]

/-- C2: for every configuration whose (resolved) model file path does not
exist, each of the three variants terminates with exit status 1 at startup
and emits no `listener_started` event.  The standalone listeners take the
explicit existence-check path; the bridge has no such check — its engine
`open` fails (spec section 4.2) before `listener_started`, and CPython
terminates an uncaught exception with status 1.  The backend flag, when
given, is assumed to pass the argparse `choices` check. -/
theorem claim_C2 (fs : String → Bool) (env : BridgeEnv) (flags : BridgeFlags)
    (pflags : PorcFlags) (oflags : OwwFlags) (envKey : Option String)
    (hv : validBackendFlag flags)
    (hb : fs (bridgeResolvedModel env flags) = false)
    (hp : fs (pflags.model.getD porcupineDefaultModelPath) = false)
    (ho : fs (oflags.model.getD owwDefaultModelPath) = false) :
    (traceExitCode (bridge_main fs env flags) = some 1 ∧
      ∀ b, Act.emitStarted b ∉ bridge_main fs env flags) ∧
    (traceExitCode (porcupine_listener_main fs envKey pflags) = some 1 ∧
      ∀ b, Act.emitStarted b ∉ porcupine_listener_main fs envKey pflags) ∧
    (traceExitCode (oww_listener_main fs oflags) = some 1 ∧
      ∀ b, Act.emitStarted b ∉ oww_listener_main fs oflags) := by
  refine ⟨?_, ?_, ?_⟩
  · unfold bridge_main
    cases hth : bridgeThresholdDefault env with
    | none => exact ⟨rfl, by simp⟩
    | some d =>
      rw [usageErr_false_of_valid flags hv]
      simp only [Bool.false_eq_true, if_false]
      by_cases hbe : (bridgeBackendStr env flags == "porcupine") = true
      · rw [if_pos hbe]
        cases hak : bridgeAccessKey env flags with
        | none => exact ⟨rfl, by simp⟩
        | some k =>
          simp only [run_porcupine_start, hb, Bool.false_eq_true, if_false]
          exact ⟨rfl, by simp⟩
      · rw [if_neg hbe]
        simp only [run_oww_start, hb, Bool.false_eq_true, if_false]
        exact ⟨rfl, by simp⟩
  · unfold porcupine_listener_main
    cases hk : pflags.accessKey <|> envKey with
    | none => exact ⟨rfl, by simp⟩
    | some k =>
      simp only [hp, Bool.false_eq_true, if_false]
      exact ⟨rfl, by simp⟩
  · unfold oww_listener_main
    simp only [ho, Bool.false_eq_true, if_false]
    exact ⟨rfl, by simp⟩

theorem claim_C2_witness :
    traceExitCode
        (bridge_main (fun _ => false) ⟨none, none, none, none⟩ ⟨none, none, none, none⟩) =
      some 1 ∧
    traceExitCode (porcupine_listener_main (fun _ => false) none ⟨none, none, none⟩) = some 1 ∧
    traceExitCode (oww_listener_main (fun _ => false) ⟨none, none⟩) = some 1 := by
  have h := claim_C2 (fun _ => false) ⟨none, none, none, none⟩ ⟨none, none, none, none⟩
    ⟨none, none, none⟩ ⟨none, none⟩ none (Or.inl rfl) rfl rfl rfl
  exact ⟨h.1.1, h.2.1.1, h.2.2.1⟩

/-- C3 fails on the code: the shutdown handlers are plain sequential calls
with no try/finally, so when closing the stream fails, the engine handle is
never released, no stopped event is emitted, and the process does not exit
with status 0 — shown here on the bridge's porcupine handler. -/
theorem claim_C3_cex :
    ShutAct.engineDelete ∉ bridgePorcShutdown ⟨true, false, false⟩ ∧
    ShutAct.emitStopped WWBackend.porcupine ∉ bridgePorcShutdown ⟨true, false, false⟩ ∧
    ShutAct.exitZero ∉ bridgePorcShutdown ⟨true, false, false⟩ ∧
    bridgePorcShutdown ⟨true, false, false⟩ = [ShutAct.propagateErr] := by
  refine ⟨?_, ?_, ?_, rfl⟩ <;> simp [bridgePorcShutdown]

/-- C3 corrected: on a termination signal each handler runs its release
calls sequentially.  When no release fails, each resource it knows is
released exactly once, the bridge variants emit the stopped event, the
standalone variants print a shutdown message, and the process exits 0.
But a failing release propagates, skipping every later release, the
stopped event and the exit; and the oww variants never release the engine
handle at all. -/
theorem claim_C3_amended (f : ReleaseFailures) :
    (f = noFailures →
      bridgePorcShutdown f =
        [ShutAct.streamClose, ShutAct.paTerminate, ShutAct.engineDelete,
         ShutAct.emitStopped WWBackend.porcupine, ShutAct.exitZero] ∧
      bridgeOwwShutdown f =
        [ShutAct.streamClose, ShutAct.paTerminate,
         ShutAct.emitStopped WWBackend.oww, ShutAct.exitZero] ∧
      porcListenerShutdown f =
        [ShutAct.printShutdown, ShutAct.streamClose, ShutAct.paTerminate,
         ShutAct.engineDelete, ShutAct.exitZero] ∧
      owwListenerShutdown f =
        [ShutAct.printShutdown, ShutAct.streamClose, ShutAct.paTerminate,
         ShutAct.exitZero]) ∧
    (f.streamClose = true →
      ShutAct.engineDelete ∉ bridgePorcShutdown f ∧
      ShutAct.exitZero ∉ bridgePorcShutdown f ∧
      ShutAct.emitStopped WWBackend.porcupine ∉ bridgePorcShutdown f) ∧
    ShutAct.engineDelete ∉ bridgeOwwShutdown f ∧
    ShutAct.engineDelete ∉ owwListenerShutdown f := by
  refine ⟨?_, ?_, ?_, ?_⟩
  · rintro rfl
    refine ⟨rfl, rfl, rfl, rfl⟩
  · intro h
    refine ⟨?_, ?_, ?_⟩ <;> simp [bridgePorcShutdown, h]
  · unfold bridgeOwwShutdown
    split_ifs <;> simp
  · unfold owwListenerShutdown
    split_ifs <;> simp

theorem claim_C3_amended_witness :
    bridgePorcShutdown noFailures =
      [ShutAct.streamClose, ShutAct.paTerminate, ShutAct.engineDelete,
       ShutAct.emitStopped WWBackend.porcupine, ShutAct.exitZero] :=
  ((claim_C3_amended noFailures).1 rfl).1

theorem statsLine_not_mem_detectedMap (l : List (String × ℚ)) (c : Nat) (r : ℚ) :
    ListenerOut.statsLine c r ∉
      l.map (fun ws => ListenerOut.detected (some ws.1) (some ws.2)) := by
  simp [List.mem_map]

theorem statsDue_iff (e : ℚ) : statsDue e = true ↔ (pyInt e % 60 = 0 ∧ 0 < pyInt e) := by
  simp [statsDue]

/-- C4 fails on the code: at half a second of elapsed time the claimed
condition `floor(elapsed) % 60 == 0` holds, yet no stats line is emitted —
the loops additionally require `int(elapsed) > 0`. -/
theorem ratFloor_eq_intFloor (q : ℚ) : q.floor = ⌊q⌋ := by
  rw [Rat.floor_def', Rat.floor_def]

theorem claim_C4_cex :
    pyInt ((1 : ℚ) / 2) % 60 = 0 ∧
    (owwListenIteration ((1 : ℚ) / 2) 0 ((1 : ℚ) / 2) []).2 = [] ∧
    (porcListenIteration 0 ((1 : ℚ) / 2) (-1)).2 = [] := by
  have h0 : pyInt ((1 : ℚ) / 2) = 0 := by
    rw [pyInt, if_pos (by norm_num), ratFloor_eq_intFloor, Int.floor_eq_zero_iff]
    constructor <;> norm_num
  have hsd : statsDue ((1 : ℚ) / 2) = false := by
    simp only [statsDue, h0]
    decide
  have hneg : ¬ (0 : Int) ≤ -1 := by decide
  refine ⟨by rw [h0]; decide, ?_, ?_⟩
  · simp only [owwListenIteration, owwHits, List.filter_nil, List.map_nil,
      List.nil_append, hsd, Bool.false_eq_true, if_false]
  · simp only [porcListenIteration, hsd, hneg, Bool.false_eq_true, if_false,
      List.nil_append]

/-- A sample in-range UTC wall-clock reading used for concrete instances. -/
def sampleNow : PyDateTime := ⟨2026, 10, 12, 3, 4, 5, 123456⟩

/-- C4 corrected: in the standalone listeners a stats line (cumulative
count and rate `count / (elapsed/3600)`) is emitted in an iteration iff
`int(elapsed) % 60 == 0` AND `int(elapsed) > 0` — not at every 60-divisible
floor, which would include the first second — while the bridge's loops emit
no stats line at all: their only outputs are `wake_word_detected` events. -/
theorem claim_C4_amended (threshold : ℚ) (count : Nat) (elapsed : ℚ)
    (predictions : List (String × ℚ)) (result : Int) (now : PyDateTime) :
    ((∃ c r, ListenerOut.statsLine c r ∈
        (owwListenIteration threshold count elapsed predictions).2) ↔
      (pyInt elapsed % 60 = 0 ∧ 0 < pyInt elapsed)) ∧
    (statsDue elapsed = true →
      (owwListenIteration threshold count elapsed predictions).2 =
        (owwHits threshold predictions).map
          (fun ws => ListenerOut.detected (some ws.1) (some ws.2)) ++
        [ListenerOut.statsLine (owwListenIteration threshold count elapsed predictions).1
          (((owwListenIteration threshold count elapsed predictions).1 : ℚ) /
            (elapsed / 3600))]) ∧
    ((∃ c r, ListenerOut.statsLine c r ∈ (porcListenIteration count elapsed result).2) ↔
      (pyInt elapsed % 60 = 0 ∧ 0 < pyInt elapsed)) ∧
    (∀ e, e ∈ run_oww_iteration now threshold predictions →
      ∃ ws, ws ∈ run_oww_calls threshold predictions ∧
        e = on_detection now ("oww") ws.1 (some ws.2)) ∧
    (∀ e, e ∈ run_porcupine_iteration now result →
      e = on_detection now ("porcupine") ("claudette") none) := by
  refine ⟨?_, ?_, ?_, ?_, ?_⟩
  · constructor
    · rintro ⟨c, r, hmem⟩
      simp only [owwListenIteration, List.mem_append] at hmem
      rcases hmem with h | h
      · exact absurd h (statsLine_not_mem_detectedMap _ _ _)
      · by_cases hb : statsDue elapsed = true
        · exact (statsDue_iff elapsed).mp hb
        · rw [if_neg hb] at h
          simp at h
    · intro hcond
      have hb : statsDue elapsed = true := (statsDue_iff elapsed).mpr hcond
      have hmem2 : ListenerOut.statsLine
          (count + (owwHits threshold predictions).length)
          (((count + (owwHits threshold predictions).length : Nat) : ℚ) / (elapsed / 3600)) ∈
          (owwListenIteration threshold count elapsed predictions).2 := by
        simp only [owwListenIteration, List.mem_append]
        right
        rw [if_pos hb]
        exact List.mem_singleton.mpr rfl
      exact ⟨_, _, hmem2⟩
  · intro hb
    simp [owwListenIteration, owwHits, hb]
  · constructor
    · rintro ⟨c, r, hmem⟩
      simp only [porcListenIteration, List.mem_append] at hmem
      rcases hmem with h | h
      · by_cases hr : (0 : Int) ≤ result
        · rw [if_pos hr] at h
          simp at h
        · rw [if_neg hr] at h
          simp at h
      · by_cases hb : statsDue elapsed = true
        · exact (statsDue_iff elapsed).mp hb
        · rw [if_neg hb] at h
          simp at h
    · intro hcond
      have hb : statsDue elapsed = true := (statsDue_iff elapsed).mpr hcond
      have hmem2 : ListenerOut.statsLine
          (count + (if (0 : Int) ≤ result then 1 else 0))
          (((count + (if (0 : Int) ≤ result then 1 else 0) : Nat) : ℚ) / (elapsed / 3600)) ∈
          (porcListenIteration count elapsed result).2 := by
        simp only [porcListenIteration, List.mem_append]
        right
        rw [if_pos hb]
        exact List.mem_singleton.mpr rfl
      exact ⟨_, _, hmem2⟩
  · intro e he
    obtain ⟨ws, hws, heq⟩ := List.mem_map.mp he
    exact ⟨ws, hws, heq.symm⟩
  · intro e he
    obtain ⟨c, hc, heq⟩ := List.mem_map.mp he
    by_cases hr : (0 : Int) ≤ result
    · rw [run_porcupine_calls, if_pos hr] at hc
      obtain rfl := List.mem_singleton.mp hc
      exact heq.symm
    · rw [run_porcupine_calls, if_neg hr] at hc
      simp at hc

theorem claim_C4_amended_witness :
    ∃ c r, ListenerOut.statsLine c r ∈
      (owwListenIteration ((1 : ℚ) / 2) 0 (60 : ℚ) []).2 := by
  have hcast : ((60 : ℤ) : ℚ) = (60 : ℚ) := by norm_num
  have h60 : pyInt (60 : ℚ) = 60 := by
    rw [pyInt, if_pos (by norm_num), ratFloor_eq_intFloor, ← hcast, Int.floor_intCast]
  exact (claim_C4_amended ((1 : ℚ) / 2) 0 (60 : ℚ) [] 0 sampleNow).1.mpr
    ⟨by rw [h60]; decide, by rw [h60]; decide⟩

/-- C5: with the keyword-spotting (Porcupine) backend a detection is raised
in an iteration iff the engine's `process` result is `>= 0`; every
detection the bridge forwards carries the configured wake word "claudette"
and no score, and the standalone porcupine listener reports its (word-less)
detection under the same condition. -/
theorem claim_C5 (result : Int) (count : Nat) (elapsed : ℚ) :
    (run_porcupine_calls result ≠ [] ↔ 0 ≤ result) ∧
    (∀ c, c ∈ run_porcupine_calls result → c.1 = configuredWakeWord ∧ c.2 = none) ∧
    (ListenerOut.detected none none ∈ (porcListenIteration count elapsed result).2 ↔
      0 ≤ result) := by
  refine ⟨?_, ?_, ?_⟩
  · by_cases hr : (0 : Int) ≤ result
    · rw [run_porcupine_calls, if_pos hr]
      simp [hr]
    · rw [run_porcupine_calls, if_neg hr]
      simp [hr]
  · intro c hc
    by_cases hr : (0 : Int) ≤ result
    · rw [run_porcupine_calls, if_pos hr] at hc
      obtain rfl := List.mem_singleton.mp hc
      exact ⟨rfl, rfl⟩
    · rw [run_porcupine_calls, if_neg hr] at hc
      simp at hc
  · simp only [porcListenIteration, List.mem_append]
    constructor
    · rintro (h | h)
      · by_cases hr : (0 : Int) ≤ result
        · exact hr
        · rw [if_neg hr] at h
          simp at h
      · exact absurd h (detected_not_mem_statsTail _ _ _ _ _)
    · intro hr
      left
      rw [if_pos hr]
      exact List.mem_singleton.mpr rfl

theorem claim_C5_witness :
    run_porcupine_calls 3 ≠ [] ∧
    ((("claudette"), (none : Option ℚ)).1 = configuredWakeWord ∧
      (("claudette"), (none : Option ℚ)).2 = none) := by
  have h := claim_C5 3 0 0
  refine ⟨h.1.mpr (by decide), h.2.1 (("claudette"), none) ?_⟩
  rw [run_porcupine_calls, if_pos (by decide : (0 : Int) ≤ 3)]
  exact List.mem_singleton.mpr rfl

/-- C6: every `wake_word_detected` event the bridge emits is one flushed
line, the serialisation of a single JSON object whose keys are exactly
`ts`, `type`, `backend`, `word`, `score` in order, with `type` equal to
"wake_word_detected", `ts` the ISO-8601 UTC rendering of the wall clock
(accepted by the independent recogniser), and no newline anywhere in the
line. -/
theorem claim_C6 (now : PyDateTime) (backend word : String) (score : Option ℚ)
    (h : now.inRange) :
    (on_detection now backend word score).flush = true ∧
    (on_detection now backend word score).line =
      serializeObj (eventKVs now ("wake_word_detected") (detectionData backend word score)) ∧
    (eventKVs now ("wake_word_detected") (detectionData backend word score)).map Prod.fst =
      [("ts" : String), ("type" : String), ("backend" : String),
       ("word" : String), ("score" : String)] ∧
    (eventKVs now ("wake_word_detected") (detectionData backend word score)).lookup
        ("type") = some (JValue.str ("wake_word_detected")) ∧
    (eventKVs now ("wake_word_detected") (detectionData backend word score)).lookup
        ("ts") = some (JValue.str (String.mk (isoformatChars now))) ∧
    isIso8601UTC (isoformatChars now) = true ∧
    '\n' ∉ (on_detection now backend word score).line := by
  refine ⟨rfl, rfl, rfl, ?_, ?_, isIso8601UTC_isoformat now h, ?_⟩
  · simp [eventKVs, detectionData, List.lookup]
  · simp [eventKVs, detectionData, List.lookup]
  · exact serializeObj_ne_newline _

theorem claim_C6_witness :
    (on_detection sampleNow ("oww") ("claudette") (some ((21 : ℚ) / 50))).flush = true ∧
    isIso8601UTC (isoformatChars sampleNow) = true ∧
    '\n' ∉ (on_detection sampleNow ("oww") ("claudette") (some ((21 : ℚ) / 50))).line := by
  have h := claim_C6 sampleNow ("oww") ("claudette") (some ((21 : ℚ) / 50)) (by decide)
  exact ⟨h.1, h.2.2.2.2.2.1, h.2.2.2.2.2.2⟩

/-- C7: when the effective backend is the keyword spotter and no access key
is supplied by flag or environment, the bridge and the standalone porcupine
listener print an error and exit with status 1 without opening any audio
stream or engine. -/
theorem claim_C7 (fs : String → Bool) (env : BridgeEnv) (flags : BridgeFlags)
    (pflags : PorcFlags) (envKey : Option String)
    (hv : validBackendFlag flags)
    (hbe : bridgeBackendStr env flags = "porcupine")
    (hk : bridgeAccessKey env flags = none)
    (hpk : pflags.accessKey = none) (hek : envKey = none) :
    (traceExitCode (bridge_main fs env flags) = some 1 ∧
      Act.openStream ∉ bridge_main fs env flags ∧
      (∀ b m, Act.openEngine b m ∉ bridge_main fs env flags)) ∧
    (traceExitCode (porcupine_listener_main fs envKey pflags) = some 1 ∧
      Act.openStream ∉ porcupine_listener_main fs envKey pflags ∧
      (∀ b m, Act.openEngine b m ∉ porcupine_listener_main fs envKey pflags)) := by
  constructor
  · unfold bridge_main
    cases hth : bridgeThresholdDefault env with
    | none => exact ⟨rfl, by simp, by simp⟩
    | some d =>
      rw [usageErr_false_of_valid flags hv]
      simp only [Bool.false_eq_true, if_false]
      rw [hbe]
      simp only [beq_self_eq_true, if_true, reduceIte]
      rw [hk]
      exact ⟨rfl, by simp, by simp⟩
  · unfold porcupine_listener_main
    rw [hpk, hek]
    exact ⟨rfl, by simp, by simp⟩

theorem claim_C7_witness :
    traceExitCode
        (bridge_main (fun _ => true) ⟨none, none, none, none⟩ ⟨none, none, none, none⟩) =
      some 1 ∧
    traceExitCode (porcupine_listener_main (fun _ => true) none ⟨none, none, none⟩) =
      some 1 := by
  have h := claim_C7 (fun _ => true) ⟨none, none, none, none⟩ ⟨none, none, none, none⟩
    ⟨none, none, none⟩ none (Or.inl rfl) rfl rfl rfl rfl
  exact ⟨h.1.1, h.2.1⟩

theorem detectedCount_append (l1 l2 : List ListenerOut) :
    detectedCount (l1 ++ l2) = detectedCount l1 + detectedCount l2 := by
  simp [detectedCount, List.countP_append]

theorem detectedCount_map_detected (l : List (String × ℚ)) :
    detectedCount (l.map (fun ws => ListenerOut.detected (some ws.1) (some ws.2))) =
      l.length := by
  induction l with
  | nil => rfl
  | cons a l ih =>
    simp only [List.map_cons, detectedCount, List.countP_cons, if_true, reduceIte,
      List.length_cons] at ih ⊢
    omega

theorem detectedCount_statsTail (b : Bool) (c : Nat) (r : ℚ) :
    detectedCount (if b then [ListenerOut.statsLine c r] else []) = 0 := by
  cases b <;> rfl

theorem detectedCount_porcHead (b : Prop) [Decidable b] :
    detectedCount (if b then [ListenerOut.detected none none] else []) =
      if b then 1 else 0 := by
  split_ifs <;> rfl

theorem owwIteration_count (t : ℚ) (c : Nat) (e : ℚ) (p : List (String × ℚ)) :
    (owwListenIteration t c e p).1 = c + detectedCount (owwListenIteration t c e p).2 := by
  simp [owwListenIteration, detectedCount_append, detectedCount_map_detected,
    detectedCount_statsTail]

theorem porcIteration_count (c : Nat) (e : ℚ) (r : Int) :
    (porcListenIteration c e r).1 = c + detectedCount (porcListenIteration c e r).2 := by
  simp [porcListenIteration, detectedCount_append, detectedCount_porcHead,
    detectedCount_statsTail]

theorem owwRun_aux (t : ℚ) (iters : List (ℚ × List (String × ℚ))) (c : Nat)
    (outs : List ListenerOut) (h : c = detectedCount outs) :
    (iters.foldl (fun acc it =>
        let r := owwListenIteration t acc.1 it.1 it.2
        (r.1, acc.2 ++ r.2)) (c, outs)).1 =
      detectedCount (iters.foldl (fun acc it =>
        let r := owwListenIteration t acc.1 it.1 it.2
        (r.1, acc.2 ++ r.2)) (c, outs)).2 := by
  induction iters generalizing c outs with
  | nil => simpa using h
  | cons it rest ih =>
    simp only [List.foldl_cons]
    apply ih
    rw [detectedCount_append, ← h]
    exact owwIteration_count t c it.1 it.2

theorem porcRun_aux (iters : List (ℚ × Int)) (c : Nat)
    (outs : List ListenerOut) (h : c = detectedCount outs) :
    (iters.foldl (fun acc it =>
        let r := porcListenIteration acc.1 it.1 it.2
        (r.1, acc.2 ++ r.2)) (c, outs)).1 =
      detectedCount (iters.foldl (fun acc it =>
        let r := porcListenIteration acc.1 it.1 it.2
        (r.1, acc.2 ++ r.2)) (c, outs)).2 := by
  induction iters generalizing c outs with
  | nil => simpa using h
  | cons it rest ih =>
    simp only [List.foldl_cons]
    apply ih
    rw [detectedCount_append, ← h]
    exact porcIteration_count c it.1 it.2

/-- C8 fails on the code for the bridge variant: the bridge's detection
loops declare no loop-local variable at all (their state is trivial), so no
function of the loop state can track the number of detections emitted since
start — exhibited on two concrete frame sequences with 0 and 1 detections. -/
theorem claim_C8_cex :
    ¬ ∃ f : Unit → Nat, ∀ frames : List (List (String × ℚ)),
        f bridgeLoopState = (run_oww_loop sampleNow (0 : ℚ) frames).length := by
  rintro ⟨f, hf⟩
  have h0 := hf []
  have h1 := hf [[(("claudette"), (1 : ℚ))]]
  have e0 : (run_oww_loop sampleNow (0 : ℚ) []).length = 0 := rfl
  have e1 : (run_oww_loop sampleNow (0 : ℚ) [[(("claudette"), (1 : ℚ))]]).length = 1 := by
    simp [run_oww_loop, run_oww_iteration, run_oww_calls, List.filter_cons]
  rw [e0] at h0
  rw [e1] at h1
  omega

/-- C8 corrected: in the two standalone listeners the counter is
incremented exactly once per reported detection, so after any number of
loop iterations `detection_count` equals the number of detection reports
emitted since start; the bridge variant maintains no detection counter. -/
theorem claim_C8_amended (threshold : ℚ) (iters : List (ℚ × List (String × ℚ)))
    (piters : List (ℚ × Int)) :
    (owwListenRun threshold iters).1 = detectedCount (owwListenRun threshold iters).2 ∧
    (porcListenRun piters).1 = detectedCount (porcListenRun piters).2 :=
  ⟨owwRun_aux threshold iters 0 [] rfl, porcRun_aux piters 0 [] rfl⟩

/-- C9 fails on the code: with `WAKE_WORD_MODEL` set to the empty string
and no flags given, the claim says the model defaults to that environment
value, but `if not args.model` treats the empty string as absent and
substitutes the backend-specific default path instead. -/
theorem claim_C9_cex :
    bridgeResolvedModel ⟨none, some (""), none, none⟩ ⟨none, none, none, none⟩ =
      porcupineDefaultModelPath ∧
    porcupineDefaultModelPath ≠ ("") := by
  exact ⟨rfl, by decide⟩

/-- C9 corrected: backend resolves as flag, else `WAKE_WORD_BACKEND`, else
"porcupine"; threshold resolves as flag, else parsed `WAKE_WORD_THRESHOLD`,
else 0.5, except that a `WAKE_WORD_THRESHOLD` value `float()` rejects
aborts the process at startup even when an explicit flag is given (the
eager `float()` call on the environment default); the model resolves as
flag, else `WAKE_WORD_MODEL`, else the backend default — with a
non-emptiness caveat: an empty model value from flag or environment also
falls through to the backend-specific default. -/
theorem claim_C9_amended (env : BridgeEnv) (flags : BridgeFlags) :
    (bridgeBackendStr env flags = flags.backend.getD (env.backend.getD ("porcupine"))) ∧
    (env.threshold = none →
      bridgeResolvedThreshold env flags =
        some (flags.threshold.getD (PyFloat.finite (1 / 2)))) ∧
    (∀ s v, env.threshold = some s → parseFloat s = some v →
      bridgeResolvedThreshold env flags = some (flags.threshold.getD v)) ∧
    (∀ s, env.threshold = some s → parseFloat s = none →
      ∀ fs, bridge_main fs env flags = [Act.raiseUnhandled]) ∧
    (∀ m, flags.model = some m → ¬ m = ("") → bridgeResolvedModel env flags = m) ∧
    (∀ m, flags.model = none → env.model = some m → ¬ m = ("") →
      bridgeResolvedModel env flags = m) ∧
    ((bridgeModelArg env flags = none ∨ bridgeModelArg env flags = some ("")) →
      bridgeResolvedModel env flags = bridgeDefaultModel (bridgeBackendStr env flags)) := by
  refine ⟨rfl, ?_, ?_, ?_, ?_, ?_, ?_⟩
  · intro h
    simp [bridgeResolvedThreshold, bridgeThresholdDefault, h]
  · intro s v hs hv
    simp [bridgeResolvedThreshold, bridgeThresholdDefault, hs, hv]
  · intro s hs hp fs
    simp [bridge_main, bridgeThresholdDefault, hs, hp]
  · intro m hm hne
    have hb : (m == ("")) = false := beq_eq_false_iff_ne.mpr hne
    simp [bridgeResolvedModel, bridgeModelArg, hm, hb]
  · intro m hf hm hne
    have hb : (m == ("")) = false := beq_eq_false_iff_ne.mpr hne
    simp [bridgeResolvedModel, bridgeModelArg, hf, hm, hb]
  · rintro (h | h) <;> simp [bridgeResolvedModel, h]

theorem claim_C9_amended_witness :
    bridgeResolvedModel ⟨none, none, none, none⟩
        ⟨none, some ("mymodel.ppn"), none, none⟩ = ("mymodel.ppn") := by
  have h := claim_C9_amended ⟨none, none, none, none⟩
    ⟨none, some ("mymodel.ppn"), none, none⟩
  exact h.2.2.2.2.1 ("mymodel.ppn") rfl (by decide)

/-- C10: every detection the bridge's porcupine loop forwards produces a
JSON event whose `score` key is present and bound to JSON null — the
callback is invoked without a score, and `None` serialises as null. -/
theorem claim_C10 (now : PyDateTime) (result : Int) (c : String × Option ℚ)
    (hc : c ∈ run_porcupine_calls result) :
    (eventKVs now ("wake_word_detected") (detectionData ("porcupine") c.1 c.2)).lookup
        ("score") = some JValue.null ∧
    on_detection now ("porcupine") c.1 c.2 =
      ⟨serializeObj (eventKVs now ("wake_word_detected")
        (detectionData ("porcupine") c.1 c.2)), true⟩ := by
  by_cases hr : (0 : Int) ≤ result
  · rw [run_porcupine_calls, if_pos hr] at hc
    obtain rfl := List.mem_singleton.mp hc
    exact ⟨rfl, rfl⟩
  · rw [run_porcupine_calls, if_neg hr] at hc
    simp at hc

theorem claim_C10_witness :
    (eventKVs sampleNow ("wake_word_detected")
        (detectionData ("porcupine") ("claudette") none)).lookup ("score") =
      some JValue.null := by
  have h := claim_C10 sampleNow 5 (("claudette"), none)
    (by rw [run_porcupine_calls, if_pos (by decide : (0 : Int) ≤ 5)]
        exact List.mem_singleton.mpr rfl)
  exact h.1
